import Mathlib

/-!
Shallow embedding of the shop controllers of this repository
(routes/controllers in `src/routes/auth.js`, admin controller in
`src/unnamed/part_000`).  Pure data is modelled with Lean structures;
JavaScript numbers used as prices are modelled as rationals; the
fallible parts of each request handler (storage failures, thrown
exceptions caught by the surrounding try/catch) are modelled with
`Except`/`Option` results and explicit success flags for external
writes.  Each handler operates on an explicit `State` (catalog,
requesting user with their cart, order ledger) instead of the ambient
`req`/`res` objects.
-/

set_option autoImplicit false

namespace Shop

/-- A catalog product (models/product): identifier, title, description,
image reference, price, owning user. -/
structure Product where
  id : Nat
  title : String
  description : String
  imageUrl : String
  price : Rat
  userId : Nat
  deriving Repr, DecidableEq

/-- One entry of a user's cart: a product reference with a quantity
(`cart.items` of the user document / the sequelize join row). -/
structure CartItem where
  productId : Nat
  quantity : Nat
  deriving Repr, DecidableEq

/-- A cart item after `populate('cart.items.productId')`: the product
document joined with the quantity. -/
structure PopulatedItem where
  product : Product
  quantity : Nat
  deriving Repr, DecidableEq

/-- One line of an order: `{ quantity, productData: { ...i.productId._doc } }`,
i.e. the purchased quantity together with a full copy of the product
document at purchase time. -/
structure LineItem where
  quantity : Nat
  productData : Product
  deriving Repr, DecidableEq

/-- A persisted order: purchaser identity plus the frozen line items.
The `_id` is the storage-assigned identifier (modelled as the ledger
index at creation time). -/
structure Order where
  _id : Nat
  email : String
  userId : Nat
  products : List LineItem
  deriving Repr, DecidableEq

/-- The requesting user (`req.user`): identity, email and cart items. -/
structure User where
  _id : Nat
  email : String
  cart : List CartItem
  deriving Repr, DecidableEq

/-- The store state a request handler sees: the product catalog, the
requesting user (with their cart) and the order ledger. -/
structure State where
  catalog : List Product
  user : User
  orders : List Order
  deriving Repr, DecidableEq

/-- Errors surfaced through `next(error)`: a distinct missing-entity
error (`new Error('No order found')`), the cross-user error
(`new Error('Unauthorized')`), and the generic wrapped server fault
(`new Error(err)` with `error.httpStatusCode = 500`). -/
inductive ShopError where
  | notFound
  | unauthorized
  | serverFault (status : Nat)
  deriving Repr, DecidableEq

/-- Resolution of cart items against the catalog, as performed by
`populate('cart.items.productId')`: each item's product reference is
replaced by the product document. -/
def populate (catalog : List Product) (cart : List CartItem) : List PopulatedItem :=
  cart.filterMap fun ci =>
    (catalog.find? fun p => p.id == ci.productId).map fun p =>
      { product := p, quantity := ci.quantity }

/-! ### Product listing (`getProducts` / `getIndex`, mongoose variant) -/

/-- `const ITEMS_PER_PAGE = 3`. -/
def ITEMS_PER_PAGE : Nat := 3

/-- The `page` query parameter as the handler receives it: absent,
present but not a number, or a number. -/
inductive PageQuery where
  | absent
  | nonNumeric
  | num (n : Nat)
  deriving Repr, DecidableEq

/-- The computation `const page = +req.query.page || 1`: an absent
parameter (`+undefined` is `NaN`), a non-numeric one (`NaN`), and `0`
are all falsy and default to `1`. -/
def parsePage : PageQuery → Nat
  | .absent => 1
  | .nonNumeric => 1
  | .num n => if n == 0 then 1 else n

/-- The data rendered to the product-list / index views. -/
structure ProductListPage where
  prods : List Product
  pageTitle : String
  path : String
  currentPage : Nat
  hasNextPage : Bool
  hasPrevPage : Bool
  nextPage : Nat
  prevPage : Nat
  lastPage : Nat
  deriving Repr, DecidableEq

/-- The shop `getProducts` handler: counts the catalog, fetches the
page via `.skip((page - 1) * ITEMS_PER_PAGE).limit(ITEMS_PER_PAGE)` and
renders the pagination fields. -/
def getProducts (catalog : List Product) (q : PageQuery) : ProductListPage :=
  let page := parsePage q
  let totalItems := catalog.length
  { prods := (catalog.drop ((page - 1) * ITEMS_PER_PAGE)).take ITEMS_PER_PAGE
    pageTitle := "All Products"
    path := "/products"
    currentPage := page
    hasNextPage := decide (ITEMS_PER_PAGE * page < totalItems)
    hasPrevPage := decide (1 < page)
    nextPage := page + 1
    prevPage := page - 1
    lastPage := (totalItems + ITEMS_PER_PAGE - 1) / ITEMS_PER_PAGE }

/-- The shop `getIndex` handler: identical pagination, rendered to the
index view. -/
def getIndex (catalog : List Product) (q : PageQuery) : ProductListPage :=
  let page := parsePage q
  let totalItems := catalog.length
  { prods := (catalog.drop ((page - 1) * ITEMS_PER_PAGE)).take ITEMS_PER_PAGE
    pageTitle := "Shop"
    path := "/"
    currentPage := page
    hasNextPage := decide (ITEMS_PER_PAGE * page < totalItems)
    hasPrevPage := decide (1 < page)
    nextPage := page + 1
    prevPage := page - 1
    lastPage := (totalItems + ITEMS_PER_PAGE - 1) / ITEMS_PER_PAGE }

/-! ### Product detail (`getProduct`, mongoose variant) -/

/-- The data rendered to the product-detail view; `pageTitle` is read
off the fetched product (`product.title`). -/
structure DetailPage where
  product : Product
  pageTitle : String
  deriving Repr, DecidableEq

/-- The shop `getProduct` handler.  `storeOk` models whether the
underlying `Product.findById` call itself succeeds.  When the id does
not resolve, `findById` yields `null` and the subsequent
`product.title` access throws; the surrounding catch wraps either
exception as a generic error with `httpStatusCode = 500`. -/
def getProduct (catalog : List Product) (storeOk : Bool) (prodId : Nat) :
    Except ShopError DetailPage :=
  if storeOk then
    match catalog.find? fun p => p.id == prodId with
    | some product => .ok { product := product, pageTitle := product.title }
    | none => .error (.serverFault 500)
  else
    .error (.serverFault 500)

/-! ### Adding to the cart (`postCart`) -/

/-- The sequelize `postCart` handler.  It looks the product up among
the cart's products; if present, `newQty = oldQty + 1` and
`cart.addProduct(product, { through: { quantity: newQty } })` updates
the join row's quantity; if absent, the product is fetched from the
catalog (`Product.findByPk`) and inserted with the initial
`newQty = 1`.  If the product exists in neither cart nor catalog the
insert call throws on `null` and the catch leaves the cart unchanged. -/
def postCart (catalog : List Product) (cart : List CartItem) (prodId : Nat) :
    List CartItem :=
  match cart.find? fun c => c.productId == prodId with
  | some ci =>
    cart.map fun c =>
      if c.productId == prodId then { c with quantity := ci.quantity + 1 } else c
  | none =>
    match catalog.find? fun p => p.id == prodId with
    | some _ => cart ++ [{ productId := prodId, quantity := 1 }]
    | none => cart

/-- Modelled from the spec: `User.addToCart` of the mongoose user model
(models/user.js is not under src/; only its caller `postCart` is).
Per the spec's Cart Aggregate contract: if the productId is already
present in the cart, quantity += 1, else append an entry with
quantity = 1. -/
def addToCart (cart : List CartItem) (product : Product) : List CartItem :=
  match cart.find? fun c => c.productId == product.id with
  | some ci =>
    cart.map fun c =>
      if c.productId == product.id then { c with quantity := ci.quantity + 1 } else c
  | none => cart ++ [{ productId := product.id, quantity := 1 }]

/-- The mongoose `postCart` handler: `Product.findById(prodId)` then
`req.user.addToCart(product)`.  A missing product makes `addToCart`
throw on `null`; the catch leaves the cart unchanged. -/
def postCartMongoose (catalog : List Product) (cart : List CartItem) (prodId : Nat) :
    List CartItem :=
  match catalog.find? fun p => p.id == prodId with
  | some product => addToCart cart product
  | none => cart

/-- Repeated `postCart` calls for the same user and product starting
from the empty cart. -/
def addCalls (catalog : List Product) (prodId : Nat) : Nat → List CartItem
  | 0 => []
  | n + 1 => postCart catalog (addCalls catalog prodId n) prodId

/-! ### Checkout (`getCheckout`, `getCheckoutSuccess`, `postOrder`) -/

/-- The running total of `getCheckout`:
`products.forEach(p => { totalSum += p.quantity * p.productId.price })`. -/
def checkoutTotalSum (items : List PopulatedItem) : Rat :=
  items.foldl (fun acc p => acc + (p.quantity : Rat) * p.product.price) 0

/-- One element of the `line_items` array sent to the payment service:
name, description, unit amount in cents (`price * 100`), currency and
quantity. -/
structure StripeLineItem where
  name : String
  description : String
  amount : Rat
  currency : String
  quantity : Nat
  deriving Repr, DecidableEq

/-- The `line_items` array passed to `stripe.checkout.sessions.create`. -/
def stripeLineItems (items : List PopulatedItem) : List StripeLineItem :=
  items.map fun p =>
    { name := p.product.title
      description := p.product.description
      amount := p.product.price * 100
      currency := "usd"
      quantity := p.quantity }

/-- The total amount a payment session charges: the sum over its line
items of unit amount times quantity (in cents). -/
def stripeSessionTotal (ls : List StripeLineItem) : Rat :=
  ls.foldl (fun acc l => acc + l.amount * (l.quantity : Rat)) 0

/-- The data rendered to the checkout view by `getCheckout`, together
with the line items of the session it creates. -/
structure CheckoutPage where
  products : List PopulatedItem
  totalSum : Rat
  sessionLineItems : List StripeLineItem
  deriving Repr, DecidableEq

/-- The `getCheckout` handler: populates the cart, folds up `totalSum`,
creates a payment session with one line item per cart entry, and
renders the checkout page.  There is no empty-cart branch. -/
def getCheckout (s : State) : CheckoutPage :=
  let items := populate s.catalog s.user.cart
  { products := items
    totalSum := checkoutTotalSum items
    sessionLineItems := stripeLineItems items }

/-- The order document built from the populated cart items:
`{ user: { email, userId }, products: items.map(i => ({ quantity, productData: {...} })) }`,
with the storage-assigned `_id`. -/
def orderFromCart (oid : Nat) (user : User) (items : List PopulatedItem) : Order :=
  { _id := oid
    email := user.email
    userId := user._id
    products := items.map fun i => { quantity := i.quantity, productData := i.product } }

/-- The effect of `order.save()`: append to the ledger, or throw
(modelled by the `ok` flag) leaving the ledger unchanged. -/
def saveOrder (ok : Bool) (orders : List Order) (o : Order) :
    Except ShopError (List Order) :=
  if ok then .ok (orders ++ [o]) else .error (.serverFault 500)

/-- The effect of `req.user.clearCart()`. -/
def clearCart (u : User) : User :=
  { u with cart := [] }

/-- The `getCheckoutSuccess` handler: populate the cart, build the
order snapshot, `await order.save()`, then `await req.user.clearCart()`.
If the save throws, the catch forwards a 500 error and `clearCart` is
never reached, so the whole state is unchanged. -/
def getCheckoutSuccess (s : State) (saveOk : Bool) : State × Option ShopError :=
  let items := populate s.catalog s.user.cart
  let order := orderFromCart s.orders.length s.user items
  match saveOrder saveOk s.orders order with
  | .error e => (s, some e)
  | .ok newOrders => ({ s with orders := newOrders, user := clearCart s.user }, none)

/-- The `postOrder` handler (the synchronous order-creation path); its
body is the same sequence as `getCheckoutSuccess`: populate, snapshot,
save, clear. -/
def postOrder (s : State) (saveOk : Bool) : State × Option ShopError :=
  let items := populate s.catalog s.user.cart
  let order := orderFromCart s.orders.length s.user items
  match saveOrder saveOk s.orders order with
  | .error e => (s, some e)
  | .ok newOrders => ({ s with orders := newOrders, user := clearCart s.user }, none)

/-! ### Invoice (`getInvoice`) -/

/-- One rendered invoice line:
`Product: title - Quantity: q Price: $p`. -/
structure InvoiceLine where
  title : String
  quantity : Nat
  unitPrice : Rat
  deriving Repr, DecidableEq

/-- The total recomputed while rendering the invoice:
`totalPrice = totalPrice + product.productData.price * product.quantity`. -/
def invoiceTotal (o : Order) : Rat :=
  o.products.foldl (fun acc p => acc + p.productData.price * (p.quantity : Rat)) 0

/-- The rendered invoice document: the underlined title, one line per
order product, and the closing total line. -/
structure InvoiceDoc where
  title : String
  lines : List InvoiceLine
  total : Rat
  deriving Repr, DecidableEq

/-- Rendering of an order into the invoice document. -/
def renderInvoice (o : Order) : InvoiceDoc :=
  { title := "Invoice"
    lines := o.products.map fun p =>
      { title := p.productData.title, quantity := p.quantity, unitPrice := p.productData.price }
    total := invoiceTotal o }

/-- The outcome of `getInvoice`: what was written to the durable
invoice file, what was streamed to the client, and the error forwarded
to `next`, if any. -/
structure InvoiceResult where
  artifactStore : Option InvoiceDoc
  clientBody : Option InvoiceDoc
  error : Option ShopError
  deriving Repr, DecidableEq

/-- The `getInvoice` handler: fetch the order by id (missing order is
surfaced as `next(new Error('No order found'))`), reject a requester
who is not the order's owner with `next(new Error('Unauthorized'))`
before any document is created, and otherwise pipe the rendered PDF
both to the invoice file and to the response. -/
def getInvoice (orders : List Order) (requesterId orderId : Nat) : InvoiceResult :=
  match orders.find? fun o => o._id == orderId with
  | none => { artifactStore := none, clientBody := none, error := some .notFound }
  | some order =>
    if order.userId != requesterId then
      { artifactStore := none, clientBody := none, error := some .unauthorized }
    else
      let doc := renderInvoice order
      { artifactStore := some doc, clientBody := some doc, error := none }

/-! ### Admin product edit (`postEditProduct`) -/

/-- The admin `postEditProduct` handler: fetch the product by id,
overwrite its title, imageUrl, price and description, and save it.  A
missing product makes the field assignments throw on `null`; the catch
logs and changes nothing.  Only the catalog is touched. -/
def postEditProduct (s : State) (productId : Nat) (title imageUrl : String)
    (price : Rat) (description : String) : State :=
  match s.catalog.find? fun p => p.id == productId with
  | none => s
  | some _ =>
    { s with catalog := s.catalog.map fun p =>
        if p.id == productId then
          { p with title := title, imageUrl := imageUrl, price := price,
                   description := description }
        else p }

/-! ### Helper lemmas about accumulating folds -/

theorem foldl_add_init {α : Type} (f : α → Rat) (l : List α) :
    ∀ a : Rat, l.foldl (fun acc x => acc + f x) a = a + l.foldl (fun acc x => acc + f x) 0 := by
  induction l with
  | nil => intro a; simp
  | cons x xs ih =>
    intro a
    simp only [List.foldl_cons]
    rw [ih (a + f x), ih (0 + f x)]
    ring

theorem foldl_add_congr {α : Type} (f g : α → Rat) (h : ∀ x, f x = g x) (l : List α) :
    ∀ a : Rat, l.foldl (fun acc x => acc + f x) a = l.foldl (fun acc x => acc + g x) a := by
  induction l with
  | nil => intro a; rfl
  | cons x xs ih =>
    intro a
    simp only [List.foldl_cons, h x]
    exact ih _

theorem foldl_add_smul {α : Type} (c : Rat) (f : α → Rat) (l : List α) :
    l.foldl (fun acc x => acc + c * f x) 0 = c * l.foldl (fun acc x => acc + f x) 0 := by
  induction l with
  | nil => simp
  | cons x xs ih =>
    simp only [List.foldl_cons]
    rw [foldl_add_init (fun x => c * f x) xs, foldl_add_init f xs, ih]
    ring

/-- The invoice recomputation over an order snapshot equals the
checkout fold over the populated items the snapshot was built from. -/
theorem invoiceTotal_orderFromCart (oid : Nat) (u : User) (items : List PopulatedItem) :
    invoiceTotal (orderFromCart oid u items) = checkoutTotalSum items := by
  unfold invoiceTotal orderFromCart checkoutTotalSum
  simp only [List.foldl_map]
  exact foldl_add_congr _ _ (fun x => mul_comm _ _) items 0

/-- The payment session's total (unit amount times quantity, summed) is
one hundred times the checkout total, i.e. the same amount in cents. -/
theorem stripeSessionTotal_eq (items : List PopulatedItem) :
    stripeSessionTotal (stripeLineItems items) = 100 * checkoutTotalSum items := by
  unfold stripeSessionTotal stripeLineItems checkoutTotalSum
  simp only [List.foldl_map]
  rw [foldl_add_congr _ (fun i => 100 * ((i.quantity : Rat) * i.product.price))
    (fun x => by ring) items 0]
  exact foldl_add_smul 100 _ items

/-- Orders are untouched by `postEditProduct`, whichever branch runs. -/
theorem postEditProduct_orders (s : State) (pid : Nat) (t img : String)
    (pr : Rat) (d : String) :
    (postEditProduct s pid t img pr d).orders = s.orders := by
  unfold postEditProduct
  cases s.catalog.find? fun p => p.id == pid <;> rfl

/-! ### Claim theorems -/

/-- C1: for every order created by a completed checkout, the invoice
renderer's recomputed sum of line-item price times quantity equals the
`totalSum` computed from the cart when the checkout session was
created, and the payment session's line items charge exactly that total
(in cents). -/
theorem C1_invoice_total_matches_session_total (s : State) :
    (getCheckoutSuccess s true).1.orders =
      s.orders ++ [orderFromCart s.orders.length s.user (populate s.catalog s.user.cart)] ∧
    invoiceTotal (orderFromCart s.orders.length s.user (populate s.catalog s.user.cart)) =
      (getCheckout s).totalSum ∧
    stripeSessionTotal (getCheckout s).sessionLineItems = 100 * (getCheckout s).totalSum := by
  refine ⟨rfl, ?_, ?_⟩
  · exact invoiceTotal_orderFromCart s.orders.length s.user (populate s.catalog s.user.cart)
  · exact stripeSessionTotal_eq (populate s.catalog s.user.cart)

/-- C3: clearing the cart is ordered strictly after the order save: if
persisting the order fails, the state (in particular the cart) is
unchanged and the error is surfaced; after a successful checkout the
cart is empty. -/
theorem C3_cart_cleared_only_after_save (s : State) :
    (getCheckoutSuccess s false).1 = s ∧
    (getCheckoutSuccess s false).1.user.cart = s.user.cart ∧
    (getCheckoutSuccess s false).2 = some (.serverFault 500) ∧
    (getCheckoutSuccess s true).1.user.cart = [] :=
  ⟨rfl, rfl, rfl, rfl⟩

/-- C4: the synchronous order-creation handler `postOrder` and the
success-callback handler `getCheckoutSuccess` produce identical side
effects on every state, for both save outcomes. -/
theorem C4_checkout_paths_identical (s : State) (saveOk : Bool) :
    postOrder s saveOk = getCheckoutSuccess s saveOk := rfl

/-- C7: order snapshots are frozen: editing a catalog product (title,
imageUrl, price, description) leaves every existing order unchanged,
including an order just created by checkout, whose line items keep the
product fields read from the catalog at purchase time. -/
theorem C7_order_snapshot_frozen (s : State) (pid : Nat) (t img : String)
    (pr : Rat) (d : String) :
    (postEditProduct s pid t img pr d).orders = s.orders ∧
    (postEditProduct (getCheckoutSuccess s true).1 pid t img pr d).orders =
      s.orders ++ [orderFromCart s.orders.length s.user (populate s.catalog s.user.cart)] := by
  refine ⟨postEditProduct_orders s pid t img pr d, ?_⟩
  rw [postEditProduct_orders]
  rfl

/-- C10: a product-listing request whose `page` query parameter is
absent, non-numeric, or zero renders exactly the page-1 listing, on
both the product-list and index handlers. -/
theorem C10_page_defaults_to_one (catalog : List Product) :
    getProducts catalog .absent = getProducts catalog (.num 1) ∧
    getProducts catalog .nonNumeric = getProducts catalog (.num 1) ∧
    getProducts catalog (.num 0) = getProducts catalog (.num 1) ∧
    getIndex catalog .absent = getIndex catalog (.num 1) ∧
    getIndex catalog .nonNumeric = getIndex catalog (.num 1) ∧
    getIndex catalog (.num 0) = getIndex catalog (.num 1) :=
  ⟨rfl, rfl, rfl, rfl, rfl, rfl⟩

/-! ### Concrete sample data -/

/-- A concrete catalog product. -/
def sampleProduct : Product :=
  { id := 1, title := "Book", description := "A book", imageUrl := "book.png",
    price := 10, userId := 7 }

/-- A concrete state whose user has an empty cart. -/
def emptyCartState : State :=
  { catalog := [sampleProduct]
    user := { _id := 42, email := "user@example.com", cart := [] }
    orders := [] }

/-- A concrete persisted order owned by user 99. -/
def sampleOrder : Order :=
  { _id := 5, email := "owner@example.com", userId := 99, products := [] }

/-! ### Cart lemmas -/

/-- Adding a product absent from the cart but present in the catalog
appends an entry with quantity 1. -/
theorem postCart_absent (catalog : List Product) (cart : List CartItem) (pid : Nat)
    (hc : (cart.find? fun c => c.productId == pid) = none)
    (hp : (catalog.find? fun p => p.id == pid).isSome) :
    postCart catalog cart pid = cart ++ [{ productId := pid, quantity := 1 }] := by
  obtain ⟨p, hp2⟩ := Option.isSome_iff_exists.mp hp
  unfold postCart
  rw [hc, hp2]

/-- Adding a product already in the cart rewrites its entry with the
quantity incremented by one. -/
theorem postCart_present (catalog : List Product) (cart : List CartItem) (pid : Nat)
    (ci : CartItem) (hc : (cart.find? fun c => c.productId == pid) = some ci) :
    postCart catalog cart pid =
      cart.map fun c =>
        if c.productId == pid then { c with quantity := ci.quantity + 1 } else c := by
  unfold postCart
  rw [hc]

/-- The mongoose `postCart` (via the spec-modelled `addToCart`) agrees
with the sequelize `postCart` whenever the product exists in the
catalog. -/
theorem postCartMongoose_eq (catalog : List Product) (cart : List CartItem) (pid : Nat)
    (hp : (catalog.find? fun p => p.id == pid).isSome) :
    postCartMongoose catalog cart pid = postCart catalog cart pid := by
  obtain ⟨p, hp2⟩ := Option.isSome_iff_exists.mp hp
  have hid : p.id = pid := by
    have h := List.find?_some hp2
    simpa using h
  unfold postCartMongoose
  rw [hp2]
  show addToCart cart p = postCart catalog cart pid
  unfold addToCart postCart
  rw [hid, hp2]

/-- Iterating `postCart` on one product from the empty cart yields the
single entry carrying the call count as its quantity. -/
theorem addCalls_eq (catalog : List Product) (pid : Nat)
    (hp : (catalog.find? fun p => p.id == pid).isSome) :
    ∀ n : Nat, 0 < n → addCalls catalog pid n = [{ productId := pid, quantity := n }] := by
  intro n
  induction n with
  | zero => intro h; omega
  | succ m ih =>
    intro _
    cases m with
    | zero =>
      show postCart catalog (addCalls catalog pid 0) pid = _
      rw [show addCalls catalog pid 0 = [] from rfl]
      rw [postCart_absent catalog [] pid rfl hp]
      rfl
    | succ k =>
      show postCart catalog (addCalls catalog pid (k + 1)) pid = _
      rw [ih (Nat.succ_pos k)]
      rw [postCart_present catalog _ pid { productId := pid, quantity := k + 1 } (by simp)]
      simp

/-- C2 counterexample: completing checkout on a concrete state whose
cart is empty raises no error at all and appends an order (with no line
items) to the ledger, contradicting the claim that checkout on an empty
cart fails with EmptyCart and creates no order. -/
theorem C2_counterexample_empty_cart_checkout :
    (getCheckoutSuccess emptyCartState true).2 = none ∧
    (getCheckoutSuccess emptyCartState true).1.orders =
      [{ _id := 0, email := "user@example.com", userId := 42, products := [] }] :=
  ⟨rfl, rfl⟩

/-- C2 (amended): there is no empty-cart check: completing checkout
with an empty cart succeeds without error, appends an order with an
empty line-item list to the ledger, and leaves the (already empty)
cart empty. -/
theorem C2_empty_cart_creates_empty_order (s : State) (h : s.user.cart = []) :
    (getCheckoutSuccess s true).2 = none ∧
    (getCheckoutSuccess s true).1.orders =
      s.orders ++ [{ _id := s.orders.length, email := s.user.email,
                     userId := s.user._id, products := [] }] ∧
    (getCheckoutSuccess s true).1.user.cart = [] := by
  unfold getCheckoutSuccess saveOrder orderFromCart populate clearCart
  rw [h]
  exact ⟨rfl, rfl, rfl⟩

/-- C2 witness: the amended theorem applied to the concrete
empty-cart state. -/
theorem C2_empty_cart_witness :
    emptyCartState.user.cart = [] ∧
    ((getCheckoutSuccess emptyCartState true).2 = none ∧
     (getCheckoutSuccess emptyCartState true).1.orders =
       emptyCartState.orders ++
         [{ _id := emptyCartState.orders.length, email := emptyCartState.user.email,
            userId := emptyCartState.user._id, products := [] }] ∧
     (getCheckoutSuccess emptyCartState true).1.user.cart = []) :=
  ⟨rfl, C2_empty_cart_creates_empty_order emptyCartState rfl⟩

/-- C5: for a product present in the catalog, n `addProduct` calls from
the empty cart leave a single entry for that product whose quantity is
n; the product appears at most once; a present product is incremented
by one, an absent one appended with quantity 1; and the mongoose cart
handler has the same effect as the sequelize one. -/
theorem C5_addProduct_quantity_is_call_count (catalog : List Product) (pid n : Nat)
    (cart : List CartItem) (ci : CartItem)
    (hp : (catalog.find? fun p => p.id == pid).isSome) :
    (0 < n → addCalls catalog pid n = [{ productId := pid, quantity := n }]) ∧
    ((addCalls catalog pid n).countP fun c => c.productId == pid) ≤ 1 ∧
    ((cart.find? fun c => c.productId == pid) = some ci →
      postCart catalog cart pid =
        cart.map fun c =>
          if c.productId == pid then { c with quantity := ci.quantity + 1 } else c) ∧
    ((cart.find? fun c => c.productId == pid) = none →
      postCart catalog cart pid = cart ++ [{ productId := pid, quantity := 1 }]) ∧
    postCartMongoose catalog cart pid = postCart catalog cart pid := by
  refine ⟨addCalls_eq catalog pid hp n, ?_,
    fun hc => postCart_present catalog cart pid ci hc,
    fun hc => postCart_absent catalog cart pid hc hp,
    postCartMongoose_eq catalog cart pid hp⟩
  cases n with
  | zero => simp [addCalls]
  | succ m =>
    rw [addCalls_eq catalog pid hp (m + 1) (Nat.succ_pos m)]
    simp [List.countP, List.countP.go]

/-- C5 witness: two calls for product 1 on the singleton catalog,
starting from the empty cart. -/
theorem C5_addProduct_witness :
    (([sampleProduct].find? fun p => p.id == 1).isSome) ∧
    ((0 < 2 → addCalls [sampleProduct] 1 2 = [{ productId := 1, quantity := 2 }]) ∧
     ((addCalls [sampleProduct] 1 2).countP fun c => c.productId == 1) ≤ 1 ∧
     ((([] : List CartItem).find? fun c => c.productId == 1) =
         some { productId := 1, quantity := 1 } →
       postCart [sampleProduct] [] 1 =
         ([] : List CartItem).map fun c =>
           if c.productId == 1 then { c with quantity := 1 + 1 } else c) ∧
     ((([] : List CartItem).find? fun c => c.productId == 1) = none →
       postCart [sampleProduct] [] 1 = [] ++ [{ productId := 1, quantity := 1 }]) ∧
     postCartMongoose [sampleProduct] [] 1 = postCart [sampleProduct] [] 1) :=
  ⟨rfl, C5_addProduct_quantity_is_call_count [sampleProduct] 1 2 []
    { productId := 1, quantity := 1 } rfl⟩

/-- C6: an invoice request by a user who does not own the order is
rejected with the Unauthorized error, and no document is written to
the artifact store nor sent to the client. -/
theorem C6_invoice_unauthorized_no_document (orders : List Order)
    (requesterId orderId : Nat) (o : Order)
    (hfind : (orders.find? fun x => x._id == orderId) = some o)
    (hown : o.userId ≠ requesterId) :
    getInvoice orders requesterId orderId =
      { artifactStore := none, clientBody := none, error := some .unauthorized } := by
  unfold getInvoice
  rw [hfind]
  have h : (o.userId != requesterId) = true := bne_iff_ne.mpr hown
  simp [h]

/-- C6 witness: user 42 requests the invoice of the concrete order
owned by user 99. -/
theorem C6_invoice_unauthorized_witness :
    (([sampleOrder].find? fun x => x._id == 5) = some sampleOrder) ∧
    sampleOrder.userId ≠ 42 ∧
    getInvoice [sampleOrder] 42 5 =
      { artifactStore := none, clientBody := none, error := some .unauthorized } :=
  ⟨rfl, by decide,
    C6_invoice_unauthorized_no_document [sampleOrder] 42 5 sampleOrder rfl (by decide)⟩

/-- C8: product listing is offset-based with a fixed page size of 3:
page p skips (p-1)*3 products and returns at most 3; hasNextPage holds
exactly when 3*p is below the catalog size; and lastPage is the
ceiling of the catalog size divided by 3 (characterized by
n <= 3*lastPage < n+3). -/
theorem C8_pagination (catalog : List Product) (p : Nat) (hp : 1 ≤ p) :
    ITEMS_PER_PAGE = 3 ∧
    (getProducts catalog (.num p)).prods =
      (catalog.drop ((p - 1) * ITEMS_PER_PAGE)).take ITEMS_PER_PAGE ∧
    (getProducts catalog (.num p)).prods.length ≤ ITEMS_PER_PAGE ∧
    ((getProducts catalog (.num p)).hasNextPage = true ↔
      ITEMS_PER_PAGE * p < catalog.length) ∧
    catalog.length ≤ ITEMS_PER_PAGE * (getProducts catalog (.num p)).lastPage ∧
    ITEMS_PER_PAGE * (getProducts catalog (.num p)).lastPage <
      catalog.length + ITEMS_PER_PAGE := by
  have h0 : (p == 0) = false := by
    simp only [beq_eq_false_iff_ne, ne_eq]
    omega
  have hpp : parsePage (.num p) = p := by
    show (if (p == 0) = true then 1 else p) = p
    rw [h0]
    rfl
  refine ⟨rfl, ?_, ?_, ?_, ?_, ?_⟩
  · simp [getProducts, hpp]
  · simp only [getProducts, hpp, List.length_take, ITEMS_PER_PAGE]
    omega
  · simp [getProducts, hpp, ITEMS_PER_PAGE]
  · simp only [getProducts, hpp, ITEMS_PER_PAGE]
    omega
  · simp only [getProducts, hpp, ITEMS_PER_PAGE]
    omega

/-- C8 witness: page 2 of the one-product catalog. -/
theorem C8_pagination_witness :
    1 ≤ 2 ∧
    (ITEMS_PER_PAGE = 3 ∧
     (getProducts [sampleProduct] (.num 2)).prods =
       (([sampleProduct].drop ((2 - 1) * ITEMS_PER_PAGE)).take ITEMS_PER_PAGE) ∧
     (getProducts [sampleProduct] (.num 2)).prods.length ≤ ITEMS_PER_PAGE ∧
     ((getProducts [sampleProduct] (.num 2)).hasNextPage = true ↔
       ITEMS_PER_PAGE * 2 < [sampleProduct].length) ∧
     [sampleProduct].length ≤ ITEMS_PER_PAGE * (getProducts [sampleProduct] (.num 2)).lastPage ∧
     ITEMS_PER_PAGE * (getProducts [sampleProduct] (.num 2)).lastPage <
       [sampleProduct].length + ITEMS_PER_PAGE) :=
  ⟨by decide, C8_pagination [sampleProduct] 2 (by decide)⟩

/-- C9 counterexample: looking up a product id that resolves to nothing
(on a working store) yields exactly the same generic 500 server fault
as an underlying storage failure, not a distinct NotFound error. -/
theorem C9_counterexample_missing_product :
    getProduct [] true 1 = .error (.serverFault 500) ∧
    getProduct [] true 1 = getProduct [] false 1 :=
  ⟨rfl, rfl⟩

/-- C9 (amended): when the product id does not resolve, or the store
fails, `getProduct` surfaces the same generic 500 server fault (the
handler dereferences the absent product and the catch wraps the thrown
error); no distinct NotFound error is produced. -/
theorem C9_missing_product_is_server_fault (catalog : List Product) (storeOk : Bool)
    (pid : Nat)
    (h : (catalog.find? fun p => p.id == pid) = none ∨ storeOk = false) :
    getProduct catalog storeOk pid = .error (.serverFault 500) := by
  unfold getProduct
  rcases h with h | h
  · cases storeOk
    · rfl
    · rw [h]
      rfl
  · rw [h]
    rfl

/-- C9 witness: the amended theorem applied at the empty catalog with a
working store. -/
theorem C9_missing_product_witness :
    ((([] : List Product).find? fun p => p.id == 1) = none ∨ true = false) ∧
    getProduct [] true 1 = .error (.serverFault 500) :=
  ⟨Or.inl rfl, C9_missing_product_is_server_fault [] true 1 (Or.inl rfl)⟩

end Shop
